import Mathlib

/-!
Verification of the Air-Quality-check repository core against its
natural-language specification.

The shallow embedding follows the Python source:
* `data_collector.py` — `DataCollector._calculate_aqi` and its inner
  `get_aqi_value` (EPA breakpoint interpolation, lines 151-182);
* `health_risk_analysis.py` — `HealthRiskAnalyzer.calculate_health_risk_score`
  (lines 89-131);
* `ml_models.py` — `AirQualityPredictor.prepare_features` (lines 21-63),
  `train_arima` (lines 126-147, data-sufficiency guard), and the output shape
  of `predict_next_day_rf` (lines 214-218).

Python floats are modelled as rationals (`ℚ`); pandas missing values (NaN)
as `Option ℚ` with `none` standing for NaN.
-/

namespace AirQuality

/-! ## Definitions: AQI conversion (`data_collector.py`, lines 151-182) -/

/-- One EPA breakpoint bracket `(bp_lo, bp_hi, aqi_lo, aqi_hi)` as in the
`breakpoints` table of `get_aqi_value`. -/
structure Bracket where
  bp_lo : ℚ
  bp_hi : ℚ
  aqi_lo : ℚ
  aqi_hi : ℚ
deriving DecidableEq, Repr

/-- The three pollutants that have breakpoint tables. -/
inductive Pollutant
  | pm25
  | pm10
  | no2
deriving DecidableEq, Repr

/-- The `breakpoints` dictionary of `get_aqi_value` (lines 156-163). -/
def breakpoints : Pollutant → List Bracket
  | .pm25 => [⟨0, 12, 0, 50⟩, ⟨12.1, 35.4, 51, 100⟩, ⟨35.5, 55.4, 101, 150⟩,
              ⟨55.5, 150.4, 151, 200⟩, ⟨150.5, 250.4, 201, 300⟩, ⟨250.5, 500.4, 301, 500⟩]
  | .pm10 => [⟨0, 54, 0, 50⟩, ⟨55, 154, 51, 100⟩, ⟨155, 254, 101, 150⟩,
              ⟨255, 354, 151, 200⟩, ⟨355, 424, 201, 300⟩, ⟨425, 604, 301, 500⟩]
  | .no2  => [⟨0, 53, 0, 50⟩, ⟨54, 100, 51, 100⟩, ⟨101, 360, 101, 150⟩,
              ⟨361, 649, 151, 200⟩, ⟨650, 1249, 201, 300⟩, ⟨1250, 2049, 301, 500⟩]

/-- The linear interpolation of line 170:
`((aqi_hi - aqi_lo) / (bp_hi - bp_lo)) * (concentration - bp_lo) + aqi_lo`. -/
def interp (b : Bracket) (c : ℚ) : ℚ :=
  (b.aqi_hi - b.aqi_lo) / (b.bp_hi - b.bp_lo) * (c - b.bp_lo) + b.aqi_lo

/-- The bracket scan of lines 168-172: the first bracket with
`bp_lo ≤ concentration ≤ bp_hi` wins; if none matches, return 500 (line 172,
"Hazardous level"). -/
def bracketValue (c : ℚ) : List Bracket → ℚ
  | [] => 500
  | b :: rest => if b.bp_lo ≤ c ∧ c ≤ b.bp_hi then interp b c else bracketValue c rest

/-- `get_aqi_value(concentration, pollutant)` (lines 154-172) for a known
pollutant and a non-NaN concentration (the NaN / unknown-pollutant early
return of lines 165-166 is handled at the call site, which only invokes this
on present, non-missing values of the three known pollutants). -/
def get_aqi_value (c : ℚ) (p : Pollutant) : ℚ :=
  bracketValue c (breakpoints p)

/-- Whether `c` is covered by some bracket of the list. -/
def memBracket (c : ℚ) (l : List Bracket) : Bool :=
  l.any fun b => decide (b.bp_lo ≤ c ∧ c ≤ b.bp_hi)

/-- Whether `c` lies inside some bracket of pollutant `p`'s table. -/
def inSomeBracket (p : Pollutant) (c : ℚ) : Bool :=
  memBracket c (breakpoints p)

/-- A measurement row restricted to the three pollutants `_calculate_aqi`
inspects; `none` models a column that is absent or NaN. -/
structure PollutantRow where
  pm25 : Option ℚ
  pm10 : Option ℚ
  no2 : Option ℚ
deriving DecidableEq, Repr

/-- Field access by pollutant name. -/
def PollutantRow.get (row : PollutantRow) : Pollutant → Option ℚ
  | .pm25 => row.pm25
  | .pm10 => row.pm10
  | .no2 => row.no2

/-- The pollutant iteration order of line 176. -/
def pollutantOrder : List Pollutant := [.pm25, .pm10, .no2]

/-- `_calculate_aqi(row)` (lines 174-182): for each of pm25, pm10, no2 that is
present and non-NaN, compute the sub-index; keep it only when it is `> 0`
(line 179); return the maximum of the kept values, or the default 100 when
none was kept (line 182). -/
def calculate_aqi (row : PollutantRow) : ℚ :=
  let vals := pollutantOrder.filterMap fun p =>
    match row.get p with
    | some c =>
        let v := get_aqi_value c p
        if v > 0 then some v else none
    | none => none
  match vals with
  | [] => 100
  | v :: rest => rest.foldl max v

/-- The row AQI exactly as the spec words it (for comparison with
`calculate_aqi`): the maximum of the per-pollutant sub-indices over the
pollutants present and non-missing, with no positivity filter; `none` when no
pollutant is available. -/
def claimed_row_aqi (row : PollutantRow) : Option ℚ :=
  match pollutantOrder.filterMap fun p => (row.get p).map fun c => get_aqi_value c p with
  | [] => none
  | v :: rest => some (rest.foldl max v)

/-- A single bracket is well-formed: its concentration range is nondegenerate
and its AQI range does not decrease. -/
def BracketOk (b : Bracket) : Bool :=
  decide (b.bp_lo < b.bp_hi) && decide (b.aqi_lo ≤ b.aqi_hi)

/-- A bracket table is well-formed: every bracket is `BracketOk`, consecutive
brackets have strictly increasing concentration ranges, and their AQI ranges
do not decrease. -/
def BracketChain : List Bracket → Bool
  | [] => true
  | [b] => BracketOk b
  | b :: c :: rest =>
      BracketOk b && decide (b.bp_hi < c.bp_lo) && decide (b.aqi_hi ≤ c.aqi_lo) &&
        BracketChain (c :: rest)

/-! ## Definitions: health-risk scoring (`health_risk_analysis.py`) -/

/-- The six vulnerable groups of the `vulnerability_factors` dictionary
(lines 16-23). -/
inductive VGroup
  | children_under_5
  | elderly_over_65
  | respiratory_conditions
  | cardiovascular_conditions
  | pregnant_women
  | outdoor_workers
deriving DecidableEq, Repr

/-- The relative-risk multipliers of `vulnerability_factors` (lines 16-23). -/
def vulnerability : VGroup → ℚ
  | .children_under_5 => 1.8
  | .elderly_over_65 => 1.6
  | .respiratory_conditions => 2.2
  | .cardiovascular_conditions => 1.9
  | .pregnant_women => 1.4
  | .outdoor_workers => 1.5

/-- Iteration order of the `vulnerability_factors` dict (insertion order),
as walked by the loop of line 114. -/
def vgroups : List VGroup := [.children_under_5, .elderly_over_65, .respiratory_conditions,
  .cardiovascular_conditions, .pregnant_women, .outdoor_workers]

/-- One record of the `city_demographics` dictionary (lines 26-87). -/
structure Demographics where
  children_under_5 : ℚ
  elderly_over_65 : ℚ
  respiratory_conditions : ℚ
  cardiovascular_conditions : ℚ
  pregnant_women : ℚ
  outdoor_workers : ℚ
  population : ℚ
  low_income_percentage : ℚ
deriving DecidableEq, Repr

/-- Group share lookup inside a demographics record. -/
def Demographics.share (d : Demographics) : VGroup → ℚ
  | .children_under_5 => d.children_under_5
  | .elderly_over_65 => d.elderly_over_65
  | .respiratory_conditions => d.respiratory_conditions
  | .cardiovascular_conditions => d.cardiovascular_conditions
  | .pregnant_women => d.pregnant_women
  | .outdoor_workers => d.outdoor_workers

/-- Demographics of Delhi (lines 27-36). -/
def delhi : Demographics := ⟨8.2, 4.6, 12.5, 8.9, 2.1, 28.5, 32900000, 35.2⟩

/-- Demographics of Mumbai (lines 37-46). -/
def mumbai : Demographics := ⟨7.8, 5.2, 10.8, 7.6, 1.9, 31.2, 20700000, 41.3⟩

/-- Demographics of Kolkata (lines 47-56). -/
def kolkata : Demographics := ⟨8.9, 6.1, 14.2, 9.8, 2.0, 25.7, 15000000, 32.8⟩

/-- Demographics of Chennai (lines 57-66). -/
def chennai : Demographics := ⟨7.5, 5.8, 9.8, 7.2, 1.8, 23.4, 11700000, 29.6⟩

/-- Demographics of Bangalore (lines 67-76). -/
def bangalore : Demographics := ⟨7.2, 4.9, 8.9, 6.8, 1.9, 22.1, 13200000, 26.4⟩

/-- Demographics of Hyderabad (lines 77-86). -/
def hyderabad : Demographics := ⟨7.8, 5.1, 10.2, 7.5, 2.0, 24.8, 10500000, 31.2⟩

/-- The `city_demographics` dictionary lookup (lines 26-87). -/
def city_demographics (name : String) : Option Demographics :=
  if name = "Delhi" then some delhi
  else if name = "Mumbai" then some mumbai
  else if name = "Kolkata" then some kolkata
  else if name = "Chennai" then some chennai
  else if name = "Bangalore" then some bangalore
  else if name = "Hyderabad" then some hyderabad
  else none

/-- The base-risk step function of lines 97-108. -/
def base_risk (aqi : ℚ) : ℚ :=
  if aqi ≤ 50 then 0.1
  else if aqi ≤ 100 then 0.3
  else if aqi ≤ 150 then 0.6
  else if aqi ≤ 200 then 0.8
  else if aqi ≤ 300 then 0.95
  else 1

/-- The body of `calculate_health_risk_score` (lines 94-131) once the
demographics record is selected.  Every group of `vulnerability_factors` is a
key of every demographics record, so the `if group in demographics` guard of
line 115 always passes and the loop of lines 114-119 is a sum over the six
groups. -/
def risk_score_of (aqi : ℚ) (d : Demographics) : ℚ :=
  let br := base_risk aqi
  let total_risk := (vgroups.map fun g => br * vulnerability g * (d.share g / 100)).sum
  let total_population_factor := (vgroups.map fun g => d.share g / 100).sum
  let weighted_risk :=
    if total_population_factor > 0 then total_risk / total_population_factor else br
  let low_income_factor := 1 + d.low_income_percentage / 100 * 0.3
  min (weighted_risk * low_income_factor) 1

/-- `calculate_health_risk_score(aqi_value, city_name)` (lines 89-131): an
unknown city falls back to Delhi (lines 91-92). -/
def calculate_health_risk_score (aqi : ℚ) (city_name : String) : ℚ :=
  risk_score_of aqi ((city_demographics city_name).getD delhi)

/-- The final risk exactly as the claim words it (for comparison with
`calculate_health_risk_score`): the population-share-weighted average of
`base_risk × multiplier` over the six groups, scaled by the socioeconomic
factor and capped at 1. -/
def claimed_risk_score (aqi : ℚ) (d : Demographics) : ℚ :=
  min ((vgroups.map fun g => base_risk aqi * vulnerability g * d.share g).sum /
        (vgroups.map fun g => d.share g).sum *
        (1 + d.low_income_percentage / 100 * (3 / 10))) 1

/-! ## Definitions: feature engineering (`ml_models.py`, lines 21-63) -/

/-- One row of the input series, restricted to timestamp (in minutes) and the
four columns that receive lag/rolling features; `none` models NaN. -/
structure SeriesRow where
  timestamp : ℕ
  pm25 : Option ℚ
  pm10 : Option ℚ
  no2 : Option ℚ
  aqi : Option ℚ
deriving DecidableEq, Repr

/-- The four columns engineered at lines 42 and 49. -/
inductive FeatCol
  | pm25
  | pm10
  | no2
  | aqi
deriving DecidableEq, Repr

/-- Column access by name. -/
def SeriesRow.col (r : SeriesRow) : FeatCol → Option ℚ
  | .pm25 => r.pm25
  | .pm10 => r.pm10
  | .no2 => r.no2
  | .aqi => r.aqi

/-- The column iteration order of lines 42 and 49. -/
def featCols : List FeatCol := [.pm25, .pm10, .no2, .aqi]

/-- `lag_periods = [1, 3, 6, 12, 24]` (line 40). -/
def lag_periods : List ℕ := [1, 3, 6, 12, 24]

/-- `window_sizes = [6, 12, 24]` (line 47). -/
def window_sizes : List ℕ := [6, 12, 24]

/-- Line 31: stable ascending sort by timestamp (`sort_values('timestamp')`). -/
def sortByTimestamp (data : List SeriesRow) : List SeriesRow :=
  data.insertionSort fun a b => a.timestamp ≤ b.timestamp

/-- The value of column `c` at position `j` of the series (`none` when the
position is out of range). -/
def colAt (rows : List SeriesRow) (c : FeatCol) (j : ℕ) : Option ℚ :=
  match rows[j]? with
  | some r => r.col c
  | none => none

/-- `data[col].shift(period)` read at row `i` (line 44): NaN for the first
`period` rows, otherwise the value `period` rows earlier. -/
def lagFeature (rows : List SeriesRow) (c : FeatCol) (k i : ℕ) : Option ℚ :=
  if k ≤ i then colAt rows c (i - k) else none

/-- Collects a list of optional values into an optional list; `none` as soon
as one entry is missing. -/
def seqOption : List (Option ℚ) → Option (List ℚ)
  | [] => some []
  | none :: _ => none
  | some x :: rest => (seqOption rest).map fun l => x :: l

/-- The trailing window of `w` raw values ending at row `i`, as pandas
`rolling(window=w)` sees it (lines 51-52): defined only when the window is
full and every value in it is non-NaN (`min_periods` defaults to the window
size, and NaN entries do not count as observations). -/
def rollingWindow (rows : List SeriesRow) (c : FeatCol) (w i : ℕ) : Option (List ℚ) :=
  if w ≤ i + 1 then seqOption ((List.range w).map fun j => colAt rows c (i + 1 - w + j))
  else none

/-- Arithmetic mean, as computed by `rolling(...).mean()` (line 51). -/
def sampleMean (l : List ℚ) : ℚ := l.sum / l.length

/-- Sample variance with one delta degree of freedom.  `rolling(...).std()`
(line 52) computes the square root of exactly this quantity; the embedding
tracks the square, which is a bijective (nonnegative-to-nonnegative)
transform of the std, so the definedness and equality facts proved below
transfer verbatim to the std feature itself.  (For the configured windows
6, 12, 24 the denominator is positive.) -/
def sampleVar (l : List ℚ) : ℚ :=
  (l.map fun x => (x - sampleMean l) ^ 2).sum / ((l.length : ℚ) - 1)

/-- `{col}_rolling_mean_{w}` at row `i` (line 51). -/
def rollingMean (rows : List SeriesRow) (c : FeatCol) (w i : ℕ) : Option ℚ :=
  (rollingWindow rows c w i).map sampleMean

/-- `{col}_rolling_std_{w}` at row `i` (line 52), tracked via its square. -/
def rollingStdSq (rows : List SeriesRow) (c : FeatCol) (w i : ℕ) : Option ℚ :=
  (rollingWindow rows c w i).map sampleVar

/-- The engineered lag and rolling feature values of row `i` (lines 39-52),
in a fixed order.  The temporal fields of lines 34-37 and the synthetic
weather covariates of lines 56-58 are total functions of the row itself and
are never NaN, so they are omitted: they cannot affect the `dropna()` of
line 61 and carry no lag/rolling content. -/
def featureVector (rows : List SeriesRow) (i : ℕ) : List (Option ℚ) :=
  (lag_periods.flatMap fun k => featCols.map fun c => lagFeature rows c k i) ++
    (window_sizes.flatMap fun w => featCols.flatMap fun c =>
      [rollingMean rows c w i, rollingStdSq rows c w i])

/-- Whether row `i` survives the `dropna()` of line 61: the original columns
and every lag/rolling feature must be non-NaN. -/
def rowComplete (rows : List SeriesRow) (i : ℕ) : Bool :=
  (featCols.all fun c => (colAt rows c i).isSome) &&
    (featureVector rows i).all Option.isSome

/-- `prepare_features` (lines 21-63) restricted to the content the claims
quantify over: sort by timestamp, build lag and rolling features for every
row, drop incomplete rows; each surviving row is returned as its feature
values. -/
def prepare_features (data : List SeriesRow) : List (List (Option ℚ)) :=
  let d := sortByTimestamp data
  ((List.range d.length).filter fun i => rowComplete d i).map fun i => featureVector d i

/-! ## Definitions: ARIMA training guard (`ml_models.py`, lines 126-147) -/

/-- One raw row of the series handed to `train_arima`: a timestamp in minutes
and the target value. -/
structure TsRow where
  timestamp : ℕ
  value : ℚ
deriving DecidableEq, Repr

/-- The two failure exits of `train_arima` before any model is fitted:
`"No training data available"` (line 130) and
`"Insufficient data for ARIMA training (need at least 48 hours)"`
(line 142). -/
inductive ArimaError
  | noTrainingData
  | insufficientData
deriving DecidableEq, Repr

/-- The fitted model of lines 146-147, abstracted to the series it was fit on
(the statsmodels internals are outside the embedding; all the claims need is
that fitting happened). -/
structure ArimaFit where
  series : List (Option ℚ)
deriving DecidableEq, Repr

/-- Hour bucket of a timestamp in minutes. -/
def hourOf (t : ℕ) : ℕ := t / 60

/-- Mean of the raw values falling in hour bucket `h` (`resample('H').mean()`,
line 139); `none` for an empty bucket. -/
def bucketMean (rows : List TsRow) (h : ℕ) : Option ℚ :=
  match rows.filterMap fun r => if hourOf r.timestamp = h then some r.value else none with
  | [] => none
  | v :: rest => some ((v :: rest).sum / (v :: rest).length)

/-- Forward fill (`fillna(method='ffill')`, line 139): a missing bucket takes
the last seen value; leading missing buckets stay missing. -/
def ffillList (prev : Option ℚ) : List (Option ℚ) → List (Option ℚ)
  | [] => []
  | v :: rest =>
      match v with
      | some x => some x :: ffillList (some x) rest
      | none => prev :: ffillList prev rest

/-- The hourly grid from the first to the last hour present in the series. -/
def hourGrid (rows : List TsRow) : List ℕ :=
  match rows.map fun r => hourOf r.timestamp with
  | [] => []
  | h :: hs => (List.range (hs.foldl max h - hs.foldl min h + 1)).map fun j =>
      hs.foldl min h + j

/-- `resample('H').mean().fillna(method='ffill')` (line 139). -/
def hourly_resample (rows : List TsRow) : List (Option ℚ) :=
  ffillList none ((hourGrid rows).map fun h => bucketMean rows h)

/-- Line 135: ascending sort by timestamp before resampling. -/
def sortByTime (rows : List TsRow) : List TsRow :=
  rows.insertionSort fun a b => a.timestamp ≤ b.timestamp

/-- `train_arima` (lines 126-147) up to the data-sufficiency guard: empty
input fails at line 130; a resampled series shorter than 48 hourly points
fails at lines 141-142; only otherwise is the ARIMA model constructed and fit
(lines 146-147, abstracted as succeeding with the resampled series). -/
def train_arima (rows : List TsRow) : Except ArimaError ArimaFit :=
  if rows = [] then .error .noTrainingData
  else
    let ts := hourly_resample (sortByTime rows)
    if ts.length < 48 then .error .insufficientData
    else .ok ⟨ts⟩

/-! ## Definitions: tree-ensemble prediction output (`ml_models.py`, lines 214-218) -/

/-- The numeric part of the dictionary returned by `predict_next_day_rf`. -/
structure RfForecast where
  predicted_aqi : ℚ
  interval_lo : ℚ
  interval_hi : ℚ
deriving DecidableEq, Repr

/-- Lines 214-218 of `predict_next_day_rf`, as a function of the raw model
output `prediction` (the RandomForest regression value of line 195, which can
be any number as far as these lines are concerned): the point prediction is
`max(0, prediction)` and the interval is
`[max(0, prediction - 25), prediction + 25]`. -/
def predict_output (prediction : ℚ) : RfForecast :=
  ⟨max 0 prediction, max 0 (prediction - 25), prediction + 25⟩

/-! ## Definitions: concrete series used by witnesses -/

/-- A 25-row unbroken hourly series with no missing values. -/
def hourlySeries25 : List SeriesRow :=
  (List.range 25).map fun j => ⟨60 * j, some 1, some 1, some 1, some 1⟩

/-- A 4-row hourly series. -/
def shortSeriesA : List SeriesRow :=
  [⟨0, some 1, some 1, some 1, some 1⟩, ⟨60, some 2, some 2, some 2, some 2⟩,
   ⟨120, some 3, some 3, some 3, some 3⟩, ⟨180, some 4, some 4, some 4, some 4⟩]

/-- `shortSeriesA` with the last row (position 3) replaced. -/
def shortSeriesB : List SeriesRow :=
  [⟨0, some 1, some 1, some 1, some 1⟩, ⟨60, some 2, some 2, some 2, some 2⟩,
   ⟨120, some 3, some 3, some 3, some 3⟩, ⟨180, some 9, some 9, some 9, some 9⟩]

/-! ## Helper lemmas: the bracket scan -/

lemma interp_mono {b : Bracket} {c d : ℚ} (hbp : b.bp_lo < b.bp_hi)
    (haqi : b.aqi_lo ≤ b.aqi_hi) (hcd : c ≤ d) : interp b c ≤ interp b d := by
  unfold interp
  have hs : 0 ≤ (b.aqi_hi - b.aqi_lo) / (b.bp_hi - b.bp_lo) :=
    div_nonneg (by linarith) (by linarith)
  have := mul_le_mul_of_nonneg_left (sub_le_sub_right hcd b.bp_lo) hs
  linarith

lemma interp_lo_le {b : Bracket} {c : ℚ} (hbp : b.bp_lo < b.bp_hi)
    (haqi : b.aqi_lo ≤ b.aqi_hi) (hc : b.bp_lo ≤ c) : b.aqi_lo ≤ interp b c := by
  have h0 : interp b b.bp_lo = b.aqi_lo := by unfold interp; ring
  calc b.aqi_lo = interp b b.bp_lo := h0.symm
    _ ≤ interp b c := interp_mono hbp haqi hc

lemma interp_le_hi {b : Bracket} {c : ℚ} (hbp : b.bp_lo < b.bp_hi)
    (haqi : b.aqi_lo ≤ b.aqi_hi) (hc : c ≤ b.bp_hi) : interp b c ≤ b.aqi_hi := by
  have hne : b.bp_hi - b.bp_lo ≠ 0 := by linarith
  have h1 : interp b b.bp_hi = b.aqi_hi := by
    unfold interp
    field_simp
  calc interp b c ≤ interp b b.bp_hi := interp_mono hbp haqi hc
    _ = b.aqi_hi := h1

lemma bracketChain_tail {b : Bracket} {rest : List Bracket}
    (h : BracketChain (b :: rest) = true) : BracketChain rest = true := by
  cases rest with
  | nil => rfl
  | cons c rest2 =>
      simp only [BracketChain, Bool.and_eq_true] at h
      exact h.2

lemma bracketChain_head {b : Bracket} {rest : List Bracket}
    (h : BracketChain (b :: rest) = true) : BracketOk b = true := by
  cases rest with
  | nil => exact h
  | cons c rest2 =>
      simp only [BracketChain, Bool.and_eq_true] at h
      exact h.1.1.1

/-- Everything covered by the tail of a well-formed table lies strictly above
the head bracket's upper concentration bound. -/
lemma bracketChain_lt_of_mem_tail {b : Bracket} {rest : List Bracket} {c : ℚ}
    (hch : BracketChain (b :: rest) = true) (hm : memBracket c rest = true) :
    b.bp_hi < c := by
  induction rest generalizing b with
  | nil => simp [memBracket] at hm
  | cons b2 rest2 ih =>
      simp only [BracketChain, Bool.and_eq_true, decide_eq_true_eq] at hch
      obtain ⟨⟨⟨_, hlt⟩, _⟩, hch2⟩ := hch
      simp only [memBracket, List.any_cons, Bool.or_eq_true, decide_eq_true_eq] at hm
      rcases hm with hm | hm
      · linarith [hm.1]
      · have h2 := ih hch2 (by simpa [memBracket] using hm)
        have hok := bracketChain_head hch2
        simp only [BracketOk, Bool.and_eq_true, decide_eq_true_eq] at hok
        linarith [hok.1]

/-- The value the scan assigns to anything covered by the tail of a
well-formed table is at least the head bracket's upper AQI bound. -/
lemma bracketChain_hi_le_value {b : Bracket} {rest : List Bracket} {c : ℚ}
    (hch : BracketChain (b :: rest) = true) (hm : memBracket c rest = true) :
    b.aqi_hi ≤ bracketValue c rest := by
  induction rest generalizing b with
  | nil => simp [memBracket] at hm
  | cons b2 rest2 ih =>
      simp only [BracketChain, Bool.and_eq_true, decide_eq_true_eq] at hch
      obtain ⟨⟨⟨hok_b, _⟩, hle⟩, hch2⟩ := hch
      have hok2 := bracketChain_head hch2
      simp only [BracketOk, Bool.and_eq_true, decide_eq_true_eq] at hok2
      by_cases hhit : b2.bp_lo ≤ c ∧ c ≤ b2.bp_hi
      · rw [bracketValue, if_pos hhit]
        have := interp_lo_le hok2.1 hok2.2 hhit.1
        linarith
      · rw [bracketValue, if_neg hhit]
        simp only [memBracket, List.any_cons, Bool.or_eq_true, decide_eq_true_eq] at hm
        rcases hm with hm | hm
        · exact absurd hm hhit
        · have h2 := ih hch2 (by simpa [memBracket] using hm)
          linarith

/-- The bracket scan is monotone on concentrations covered by a well-formed
table. -/
lemma bracketValue_mono {l : List Bracket} (hch : BracketChain l = true)
    {c d : ℚ} (hc : memBracket c l = true) (hd : memBracket d l = true)
    (hcd : c ≤ d) : bracketValue c l ≤ bracketValue d l := by
  induction l with
  | nil => simp [memBracket] at hc
  | cons b rest ih =>
      have hok := bracketChain_head hch
      simp only [BracketOk, Bool.and_eq_true, decide_eq_true_eq] at hok
      by_cases hcb : b.bp_lo ≤ c ∧ c ≤ b.bp_hi
      · by_cases hdb : b.bp_lo ≤ d ∧ d ≤ b.bp_hi
        · rw [bracketValue, if_pos hcb, bracketValue, if_pos hdb]
          exact interp_mono hok.1 hok.2 hcd
        · rw [bracketValue, if_pos hcb, bracketValue, if_neg hdb]
          have hmd : memBracket d rest = true := by
            simp only [memBracket, List.any_cons, Bool.or_eq_true,
              decide_eq_true_eq] at hd
            rcases hd with hd | hd
            · exact absurd hd hdb
            · simpa [memBracket] using hd
          have h1 := interp_le_hi hok.1 hok.2 hcb.2
          have h2 := bracketChain_hi_le_value hch hmd
          linarith
      · by_cases hdb : b.bp_lo ≤ d ∧ d ≤ b.bp_hi
        · have hmc : memBracket c rest = true := by
            simp only [memBracket, List.any_cons, Bool.or_eq_true,
              decide_eq_true_eq] at hc
            rcases hc with hc | hc
            · exact absurd hc hcb
            · simpa [memBracket] using hc
          have := bracketChain_lt_of_mem_tail hch hmc
          linarith [hdb.2]
        · rw [bracketValue, if_neg hcb, bracketValue, if_neg hdb]
          have hmc : memBracket c rest = true := by
            simp only [memBracket, List.any_cons, Bool.or_eq_true,
              decide_eq_true_eq] at hc
            rcases hc with hc | hc
            · exact absurd hc hcb
            · simpa [memBracket] using hc
          have hmd : memBracket d rest = true := by
            simp only [memBracket, List.any_cons, Bool.or_eq_true,
              decide_eq_true_eq] at hd
            rcases hd with hd | hd
            · exact absurd hd hdb
            · simpa [memBracket] using hd
          exact ih (bracketChain_tail hch) hmc hmd

/-- Each of the three hard-coded breakpoint tables is well-formed. -/
lemma breakpoints_chain (p : Pollutant) : BracketChain (breakpoints p) = true := by
  cases p <;> norm_num [breakpoints, BracketChain, BracketOk]

/-- A concentration covered by no bracket falls through the whole scan. -/
lemma bracketValue_of_not_mem {l : List Bracket} {c : ℚ}
    (h : memBracket c l = false) : bracketValue c l = 500 := by
  induction l with
  | nil => rfl
  | cons b rest ih =>
      simp only [memBracket, List.any_cons, Bool.or_eq_false_iff,
        decide_eq_false_iff_not] at h
      rw [bracketValue, if_neg h.1]
      exact ih (by simpa [memBracket] using h.2)

/-! ## Helper lemmas: health-risk scoring -/

lemma sum_map_div (l : List VGroup) (f : VGroup → ℚ) (c : ℚ) :
    (l.map fun g => f g / c).sum = (l.map f).sum / c := by
  induction l with
  | nil => simp
  | cons g rest ih => simp [ih, add_div]

lemma risk_score_eq_claimed (aqi : ℚ) (d : Demographics)
    (hS : 0 < (vgroups.map fun g => d.share g).sum) :
    risk_score_of aqi d = claimed_risk_score aqi d := by
  simp only [risk_score_of, claimed_risk_score]
  have e1 : (vgroups.map fun g => base_risk aqi * vulnerability g * (d.share g / 100)).sum
      = (vgroups.map fun g => base_risk aqi * vulnerability g * d.share g).sum / 100 := by
    rw [← sum_map_div vgroups (fun g => base_risk aqi * vulnerability g * d.share g) 100]
    exact congrArg List.sum (List.map_congr_left fun g _ => by ring)
  have e2 : (vgroups.map fun g => d.share g / 100).sum
      = (vgroups.map fun g => d.share g).sum / 100 :=
    sum_map_div vgroups (fun g => d.share g) 100
  rw [e1, e2, if_pos (div_pos hS (by norm_num)), div_div_div_comm]
  norm_num

lemma demographics_share_sum_pos {name : String} {d : Demographics}
    (h : city_demographics name = some d) :
    0 < (vgroups.map fun g => d.share g).sum := by
  unfold city_demographics at h
  split_ifs at h <;>
    first
      | exact Option.noConfusion h
      | (injection h with h2; subst h2;
         norm_num [vgroups, Demographics.share, delhi, mumbai, kolkata, chennai, bangalore,
           hyderabad])

lemma demographicsFor_cases (name : String) :
    (city_demographics name).getD delhi ∈
      [delhi, mumbai, kolkata, chennai, bangalore, hyderabad] := by
  unfold city_demographics
  split_ifs <;> simp

/-! ## Helper lemmas: feature engineering -/

lemma colAt_isSome_of_complete {data : List SeriesRow}
    (hcomplete : ∀ r ∈ data, ∀ c : FeatCol, (r.col c).isSome)
    {j : ℕ} (hj : j < data.length) (c : FeatCol) : (colAt data c j).isSome := by
  unfold colAt
  rw [List.getElem?_eq_getElem hj]
  exact hcomplete _ (List.getElem_mem hj) c

lemma seqOption_isSome {l : List (Option ℚ)} (h : ∀ x ∈ l, x.isSome) :
    (seqOption l).isSome := by
  induction l with
  | nil => rfl
  | cons x rest ih =>
      cases x with
      | none => exact absurd (h none (by simp)) (by simp)
      | some v =>
          obtain ⟨l2, hl2⟩ := Option.isSome_iff_exists.mp (ih fun y hy => h y (by simp [hy]))
          simp [seqOption, hl2]

lemma lagFeature_isSome {data : List SeriesRow}
    (hcomplete : ∀ r ∈ data, ∀ c : FeatCol, (r.col c).isSome)
    {k i : ℕ} (hk : k ≤ i) (hi : i < data.length) (c : FeatCol) :
    (lagFeature data c k i).isSome := by
  unfold lagFeature
  rw [if_pos hk]
  exact colAt_isSome_of_complete hcomplete (by omega) c

lemma rollingWindow_isSome {data : List SeriesRow}
    (hcomplete : ∀ r ∈ data, ∀ c : FeatCol, (r.col c).isSome)
    {w i : ℕ} (hw : w ≤ i + 1) (hi : i < data.length) (c : FeatCol) :
    (rollingWindow data c w i).isSome := by
  unfold rollingWindow
  rw [if_pos hw]
  apply seqOption_isSome
  intro x hx
  simp only [List.mem_map, List.mem_range] at hx
  obtain ⟨j, hj, rfl⟩ := hx
  exact colAt_isSome_of_complete hcomplete (by omega) c

lemma rowComplete_of_24 {data : List SeriesRow}
    (hcomplete : ∀ r ∈ data, ∀ c : FeatCol, (r.col c).isSome)
    {i : ℕ} (hi : i < data.length) (h24 : 24 ≤ i) :
    rowComplete data i = true := by
  unfold rowComplete
  simp only [Bool.and_eq_true, List.all_eq_true]
  refine ⟨fun c _ => colAt_isSome_of_complete hcomplete hi c, fun x hx => ?_⟩
  unfold featureVector at hx
  rw [List.mem_append] at hx
  rcases hx with hx | hx
  · simp only [List.mem_flatMap, List.mem_map] at hx
    obtain ⟨k, hk, c, hc, rfl⟩ := hx
    fin_cases hk <;> exact lagFeature_isSome hcomplete (by omega) hi c
  · simp only [List.mem_flatMap, List.mem_cons, List.not_mem_nil, or_false] at hx
    obtain ⟨w, hw, c, hc, hx⟩ := hx
    have hwin : (rollingWindow data c w i).isSome := by
      fin_cases hw <;> exact rollingWindow_isSome hcomplete (by omega) hi c
    rcases hx with rfl | rfl
    · simpa [rollingMean, Option.isSome_map] using hwin
    · simpa [rollingStdSq, Option.isSome_map] using hwin

lemma le_of_rowComplete {data : List SeriesRow} {i : ℕ}
    (h : rowComplete data i = true) : 24 ≤ i := by
  by_contra h24
  push_neg at h24
  unfold rowComplete at h
  simp only [Bool.and_eq_true, List.all_eq_true] at h
  have hmem : lagFeature data FeatCol.aqi 24 i ∈ featureVector data i := by
    unfold featureVector
    rw [List.mem_append]
    left
    simp only [List.mem_flatMap, List.mem_map]
    exact ⟨24, by simp [lag_periods], FeatCol.aqi, by simp [featCols], rfl⟩
  have hs := h.2 _ hmem
  unfold lagFeature at hs
  rw [if_neg (by omega)] at hs
  simp at hs

lemma filter_range_24 (n : ℕ) (hn : 24 ≤ n) :
    ((List.range n).filter fun i => decide (24 ≤ i)).length = n - 24 := by
  induction n, hn using Nat.le_induction with
  | base => decide
  | succ n hn ih =>
      rw [List.range_succ, List.filter_append, List.length_append, ih]
      simp only [List.filter_cons, List.filter_nil, decide_eq_true_eq]
      rw [if_pos hn]
      simp
      omega

/-! ## Claim C1 -/

/-- Claim C1 fails as stated: the per-pollutant sub-index is not monotone over
all concentrations, because a concentration strictly inside the gap between
two consecutive brackets (here pm25 = 12.05, between 12 and 12.1) matches no
bracket and returns 500, which exceeds the value 51 at the larger
concentration 12.1. -/
theorem C1_counterexample :
    (241 / 20 : ℚ) < 121 / 10 ∧
    get_aqi_value (121 / 10) Pollutant.pm25 < get_aqi_value (241 / 20) Pollutant.pm25 := by
  constructor
  · norm_num
  · norm_num [get_aqi_value, breakpoints, bracketValue, interp]

/-- Claim C1, amended: for every pollutant in {pm25, pm10, no2}, the
sub-index is monotonically non-decreasing on the concentrations that lie
inside some breakpoint bracket (piecewise linear within each bracket), and
the quoted boundary examples hold exactly: PM2.5 = 12.0 gives AQI 50 and
PM2.5 = 12.1 gives AQI 51.  Concentrations in the gaps between brackets
return 500, so monotonicity and continuity over all concentrations fail
(see the counterexample). -/
theorem C1_amended_monotone :
    (∀ (p : Pollutant) (c d : ℚ), inSomeBracket p c = true → inSomeBracket p d = true →
      c ≤ d → get_aqi_value c p ≤ get_aqi_value d p) ∧
    get_aqi_value 12 Pollutant.pm25 = 50 ∧ get_aqi_value (121 / 10) Pollutant.pm25 = 51 := by
  refine ⟨fun p c d hc hd hcd => bracketValue_mono (breakpoints_chain p) hc hd hcd, ?_, ?_⟩
  · norm_num [get_aqi_value, breakpoints, bracketValue, interp]
  · norm_num [get_aqi_value, breakpoints, bracketValue, interp]

/-- Witness for C1: monotonicity applied at pm25 concentrations 5 and 20. -/
theorem C1_witness :
    inSomeBracket Pollutant.pm25 5 = true ∧ inSomeBracket Pollutant.pm25 20 = true ∧
    get_aqi_value 5 Pollutant.pm25 ≤ get_aqi_value 20 Pollutant.pm25 :=
  ⟨by norm_num [inSomeBracket, memBracket, breakpoints],
   by norm_num [inSomeBracket, memBracket, breakpoints],
   C1_amended_monotone.1 Pollutant.pm25 5 20
     (by norm_num [inSomeBracket, memBracket, breakpoints])
     (by norm_num [inSomeBracket, memBracket, breakpoints]) (by norm_num)⟩

/-! ## Claim C2 -/

/-- Claim C2 fails as stated: for the row with all three concentrations 0,
every sub-index is 0, so the maximum of the sub-indices is 0, but the code
filters out non-positive sub-indices and returns the default 100. -/
theorem C2_counterexample :
    claimed_row_aqi ⟨some 0, some 0, some 0⟩ = some 0 ∧
    calculate_aqi ⟨some 0, some 0, some 0⟩ = 100 ∧ (0 : ℚ) ≠ 100 := by
  refine ⟨?_, ?_, by norm_num⟩
  · norm_num [claimed_row_aqi, pollutantOrder, PollutantRow.get, get_aqi_value, breakpoints,
      bracketValue, interp, List.filterMap_cons]
  · norm_num [calculate_aqi, pollutantOrder, PollutantRow.get, get_aqi_value, breakpoints,
      bracketValue, interp, List.filterMap_cons]

/-- Claim C2, amended: the overall AQI of a row is the maximum of the
per-pollutant sub-indices over the pollutants present and non-missing,
provided every such sub-index is strictly positive (when no positive
sub-index remains, the code returns the default 100 instead — see the
counterexample); and for the input {pm25: 35.4, pm10: 54, no2: 53} the
computed AQI equals exactly 100. -/
theorem C2_amended_max_rule :
    (∀ row : PollutantRow,
      (∀ p c, row.get p = some c → 0 < get_aqi_value c p) →
      (row.pm25 ≠ none ∨ row.pm10 ≠ none ∨ row.no2 ≠ none) →
      claimed_row_aqi row = some (calculate_aqi row)) ∧
    calculate_aqi ⟨some (177 / 5), some 54, some 53⟩ = 100 := by
  constructor
  · rintro ⟨a, b, c⟩ hpos hne
    rcases a with _ | x <;> rcases b with _ | y <;> rcases c with _ | z
    · simp at hne
    · have hz := hpos Pollutant.no2 z rfl
      simp [claimed_row_aqi, calculate_aqi, pollutantOrder, PollutantRow.get,
        List.filterMap_cons, hz]
    · have hy := hpos Pollutant.pm10 y rfl
      simp [claimed_row_aqi, calculate_aqi, pollutantOrder, PollutantRow.get,
        List.filterMap_cons, hy]
    · have hy := hpos Pollutant.pm10 y rfl
      have hz := hpos Pollutant.no2 z rfl
      simp [claimed_row_aqi, calculate_aqi, pollutantOrder, PollutantRow.get,
        List.filterMap_cons, hy, hz]
    · have hx := hpos Pollutant.pm25 x rfl
      simp [claimed_row_aqi, calculate_aqi, pollutantOrder, PollutantRow.get,
        List.filterMap_cons, hx]
    · have hx := hpos Pollutant.pm25 x rfl
      have hz := hpos Pollutant.no2 z rfl
      simp [claimed_row_aqi, calculate_aqi, pollutantOrder, PollutantRow.get,
        List.filterMap_cons, hx, hz]
    · have hx := hpos Pollutant.pm25 x rfl
      have hy := hpos Pollutant.pm10 y rfl
      simp [claimed_row_aqi, calculate_aqi, pollutantOrder, PollutantRow.get,
        List.filterMap_cons, hx, hy]
    · have hx := hpos Pollutant.pm25 x rfl
      have hy := hpos Pollutant.pm10 y rfl
      have hz := hpos Pollutant.no2 z rfl
      simp [claimed_row_aqi, calculate_aqi, pollutantOrder, PollutantRow.get,
        List.filterMap_cons, hx, hy, hz]
  · norm_num [calculate_aqi, pollutantOrder, PollutantRow.get, get_aqi_value, breakpoints,
      bracketValue, interp, List.filterMap_cons]

/-- Witness for C2: the max rule applied at the row {pm25: 10, pm10: 60,
no2: 60}, whose three sub-indices are all positive. -/
theorem C2_witness :
    claimed_row_aqi ⟨some 10, some 60, some 60⟩ =
      some (calculate_aqi ⟨some 10, some 60, some 60⟩) :=
  C2_amended_max_rule.1 ⟨some 10, some 60, some 60⟩
    (by
      intro p c h
      cases p <;> simp only [PollutantRow.get] at h <;> rw [Option.some_inj] at h <;>
        subst h <;>
        norm_num [get_aqi_value, breakpoints, bracketValue, interp])
    (by simp)

/-! ## Claim C3 -/

/-- Claim C3: for every AQI value and every known city, the health risk score
equals `min(weighted_risk × (1 + low_income_percentage/100 × 0.3), 1.0)`,
where `weighted_risk` is the population-share-weighted average
`(Σ base_risk × multiplier × group_share) / (Σ group_share)` over the six
vulnerable groups (not a simple mean), capped at 1. -/
theorem C3_weighted_risk_formula (aqi : ℚ) (name : String) (d : Demographics)
    (h : city_demographics name = some d) :
    calculate_health_risk_score aqi name = claimed_risk_score aqi d := by
  unfold calculate_health_risk_score
  rw [h]
  exact risk_score_eq_claimed aqi d (demographics_share_sum_pos h)

/-- Witness for C3: the formula applied at AQI 75 for Delhi. -/
theorem C3_witness :
    calculate_health_risk_score 75 "Delhi" = claimed_risk_score 75 delhi :=
  C3_weighted_risk_formula 75 "Delhi" delhi rfl

/-! ## Claim C4 -/

/-- Claim C4: for every single-city input series already in timestamp order
(in particular any unbroken hourly series) with no missing values and more
than 24 rows, the feature-engineering output has exactly (input length − 24)
rows — the warm-up rows lacking the deepest lag (24, the maximum of the lag
periods {1,3,6,12,24} and rolling windows {6,12,24}) are dropped, not
imputed. -/
theorem C4_output_length (data : List SeriesRow)
    (hsorted : sortByTimestamp data = data)
    (hcomplete : ∀ r ∈ data, ∀ c : FeatCol, (r.col c).isSome)
    (hlen : 24 < data.length) :
    (prepare_features data).length = data.length - 24 := by
  unfold prepare_features
  simp only [hsorted, List.length_map]
  have hiff : ∀ i ∈ List.range data.length,
      (rowComplete data i) = decide (24 ≤ i) := by
    intro i hi
    rw [List.mem_range] at hi
    by_cases h24 : 24 ≤ i
    · rw [rowComplete_of_24 hcomplete hi h24, decide_eq_true h24]
    · have hfalse : rowComplete data i = false :=
        Bool.eq_false_iff.mpr fun hc => h24 (le_of_rowComplete hc)
      rw [hfalse, eq_comm, decide_eq_false_iff_not]
      exact h24
  rw [List.filter_congr hiff]
  exact filter_range_24 _ (le_of_lt hlen)

/-- Witness for C4: a 25-row unbroken hourly series yields exactly one
feature row. -/
theorem C4_witness :
    (prepare_features hourlySeries25).length = hourlySeries25.length - 24 :=
  C4_output_length hourlySeries25 (by decide)
    (by intro r hr c; fin_cases hr <;> cases c <;> rfl) (by decide)

/-! ## Claim C5 -/

/-- Claim C5: whenever the hourly-resampled target of the input series has
fewer than 48 points, the autoregressive training path fails before any ARIMA
model is fitted — with the insufficient-data error when the input is
nonempty, and with the (also data-insufficiency) no-training-data error when
the input is empty — and it never returns a fitted model on such input. -/
theorem C5_insufficient_data_guard (rows : List TsRow)
    (h : (hourly_resample (sortByTime rows)).length < 48) :
    (train_arima rows = .error .noTrainingData ∨
      train_arima rows = .error .insufficientData) ∧
    ∀ fit : ArimaFit, train_arima rows ≠ .ok fit := by
  by_cases hrows : rows = []
  · constructor
    · left
      simp [train_arima, hrows]
    · intro fit
      simp [train_arima, hrows]
  · constructor
    · right
      simp [train_arima, hrows, if_pos h]
    · intro fit
      simp [train_arima, hrows, if_pos h]

/-- Witness for C5: a one-point series resamples to one hourly point and is
rejected. -/
theorem C5_witness :
    train_arima [⟨0, 50⟩] = .error .noTrainingData ∨
    train_arima [⟨0, 50⟩] = .error .insufficientData :=
  (C5_insufficient_data_guard [⟨0, 50⟩]
    (by simp [hourly_resample, sortByTime, List.insertionSort, hourGrid, hourOf,
      ffillList, bucketMean])).1

/-! ## Claim C6 -/

/-- Claim C6 fails as stated: at raw prediction 10 the returned interval is
[0, 35] — the upper bound sits 25 above the point prediction but the lower
bound sits only 10 below it (the lower bound is clamped at 0), so the band is
not a symmetric ±25 band around the point prediction. -/
theorem C6_counterexample :
    (predict_output 10).interval_hi - (predict_output 10).predicted_aqi = 25 ∧
    (predict_output 10).predicted_aqi - (predict_output 10).interval_lo = 10 ∧
    (10 : ℚ) ≠ 25 := by
  norm_num [predict_output]

/-- Claim C6, amended: the point prediction is clamped to ≥ 0, the interval
lower bound is likewise clamped to ≥ 0, the interval is
[max(0, p − 25), p + 25] around the raw prediction p, and it is the symmetric
±25 band around the point prediction exactly on the inputs where the raw
prediction is at least 25 (so that neither clamp bites). -/
theorem C6_amended_interval (p : ℚ) :
    0 ≤ (predict_output p).predicted_aqi ∧ 0 ≤ (predict_output p).interval_lo ∧
    (predict_output p).interval_hi = p + 25 ∧
    (25 ≤ p →
      (predict_output p).interval_lo = (predict_output p).predicted_aqi - 25 ∧
      (predict_output p).interval_hi = (predict_output p).predicted_aqi + 25) := by
  refine ⟨le_max_left _ _, le_max_left _ _, rfl, fun hp => ⟨?_, ?_⟩⟩
  · show max 0 (p - 25) = max 0 p - 25
    rw [max_eq_right (by linarith), max_eq_right (by linarith)]
  · show p + 25 = max 0 p + 25
    rw [max_eq_right (by linarith)]

/-- Witness for C6: the symmetric band at raw prediction 30. -/
theorem C6_witness :
    (predict_output 30).interval_lo = (predict_output 30).predicted_aqi - 25 ∧
    (predict_output 30).interval_hi = (predict_output 30).predicted_aqi + 25 :=
  (C6_amended_interval 30).2.2.2 (by norm_num)

/-! ## Claim C7 -/

/-- Claim C7: for every city name (known or falling back to Delhi), the risk
score at AQI 0 uses the lowest base-risk band value 0.1, and the returned
risk at AQI 0 is strictly less than the returned risk at AQI 400 for the same
city. -/
theorem C7_monotone_risk (name : String) :
    base_risk 0 = 0.1 ∧
    calculate_health_risk_score 0 name < calculate_health_risk_score 400 name := by
  refine ⟨by norm_num [base_risk], ?_⟩
  have key : ∀ d : Demographics, d ∈ [delhi, mumbai, kolkata, chennai, bangalore, hyderabad] →
      risk_score_of 0 d < risk_score_of 400 d := by
    intro d hd
    fin_cases hd <;>
      norm_num [risk_score_of, base_risk, vgroups, vulnerability, Demographics.share,
        delhi, mumbai, kolkata, chennai, bangalore, hyderabad, min_def]
  unfold calculate_health_risk_score
  exact key _ (demographicsFor_cases name)

/-! ## Claim C8 -/

/-- Claim C8: each lag and rolling feature of row `i` of the
timestamp-sorted series depends only on positions ≤ i — two series agreeing
at all positions ≤ i get identical feature vectors at row i, whatever stands
at the later positions (no look-ahead).  `featureVector` is exactly what
`prepare_features` evaluates on the sorted series. -/
theorem C8_no_lookahead (s t : List SeriesRow) (i : ℕ)
    (hagree : ∀ j, j ≤ i → s[j]? = t[j]?) :
    featureVector s i = featureVector t i := by
  have hcol : ∀ (c : FeatCol) (j : ℕ), j ≤ i → colAt s c j = colAt t c j := by
    intro c j hj
    unfold colAt
    rw [hagree j hj]
  have hlag : ∀ (c : FeatCol) (k : ℕ), lagFeature s c k i = lagFeature t c k i := by
    intro c k
    unfold lagFeature
    split_ifs with h
    · exact hcol c _ (by omega)
    · rfl
  have hwin : ∀ (c : FeatCol) (w : ℕ), rollingWindow s c w i = rollingWindow t c w i := by
    intro c w
    unfold rollingWindow
    split_ifs with h
    · congr 1
      exact List.map_congr_left fun j hj => hcol c _ (by rw [List.mem_range] at hj; omega)
    · rfl
  have hmean : ∀ (c : FeatCol) (w : ℕ), rollingMean s c w i = rollingMean t c w i := by
    intro c w
    unfold rollingMean
    rw [hwin]
  have hstd : ∀ (c : FeatCol) (w : ℕ), rollingStdSq s c w i = rollingStdSq t c w i := by
    intro c w
    unfold rollingStdSq
    rw [hwin]
  unfold featureVector
  simp only [hlag, hmean, hstd]

/-- Witness for C8: two 4-row series differing only at position 3 have the
same feature vector at row 2. -/
theorem C8_witness :
    featureVector shortSeriesA 2 = featureVector shortSeriesB 2 :=
  C8_no_lookahead shortSeriesA shortSeriesB 2 (by intro j hj; interval_cases j <;> rfl)

/-! ## Claim C9 -/

/-- Claim C9: if no pollutant among {pm25, pm10, no2} is present and
non-missing in a row, the AQI conversion returns the configured default 100 —
a non-zero value — rather than zero, and it does not fail (the function is
total). -/
theorem C9_default_aqi (row : PollutantRow)
    (h25 : row.pm25 = none) (h10 : row.pm10 = none) (hno : row.no2 = none) :
    calculate_aqi row = 100 ∧ (100 : ℚ) ≠ 0 := by
  obtain ⟨a, b, c⟩ := row
  cases h25
  cases h10
  cases hno
  constructor
  · simp [calculate_aqi, pollutantOrder, PollutantRow.get, List.filterMap_cons]
  · norm_num

/-- Witness for C9: the all-missing row. -/
theorem C9_witness : calculate_aqi ⟨none, none, none⟩ = 100 ∧ (100 : ℚ) ≠ 0 :=
  C9_default_aqi ⟨none, none, none⟩ rfl rfl rfl

/-! ## Claim C10 -/

/-- Claim C10: for every pollutant in {pm25, pm10, no2}, any concentration
lying inside no breakpoint bracket — above the top bracket, strictly inside a
gap between consecutive brackets, or negative — yields a per-pollutant
sub-index of exactly 500. -/
theorem C10_uncovered_gives_500 (p : Pollutant) (c : ℚ)
    (h : inSomeBracket p c = false) : get_aqi_value c p = 500 :=
  bracketValue_of_not_mem h

/-- Witness for C10: pm25 = 12.05 sits in the gap between the first two
brackets and maps to 500. -/
theorem C10_witness :
    inSomeBracket Pollutant.pm25 (241 / 20) = false ∧
    get_aqi_value (241 / 20) Pollutant.pm25 = 500 :=
  ⟨by norm_num [inSomeBracket, memBracket, breakpoints],
   C10_uncovered_gives_500 Pollutant.pm25 (241 / 20)
     (by norm_num [inSomeBracket, memBracket, breakpoints])⟩

end AirQuality
